import Mathlib

/-!
# ROSCameraObserver: target configuration and point observation

A shallow embedding of `industrial_extrinsic_cal/src/ros_camera_observer.cpp`.

* The observer object is a record of its member variables; every member
  function takes the record and returns the updated record with its result.
* OpenCV routines (`findChessboardCorners`, `findCirclesGrid`, `fillConvexPoly`,
  `circle`, `line`, sub-image extraction) are not part of the file; they are
  the fields of `Env`, and every theorem quantifies over all of them.
* `float`/`double` coordinates are rationals (finite values only).
* C++ `int` values are integers. The two subtractions of `addTarget` wrap to 32 bits, as
  the compiled code does; the index arithmetic stays within range for vectors that fit in
  memory.
* `std::sort` is the routine of libstdc++: plain insertion up to 16 elements, and above that
  the partitioning loop, the heap fallback and the final insertion, position by position.
* A dereferenced null pointer, a failed `at()`, an exception thrown by the sub-image
  extraction and an iterator of `std::sort` dereferenced outside the vector are faults; the
  unchecked `operator[]` never fails, and outside the vector it yields whatever the
  environment holds there. The detectors and the drawing routines return.
* The `do ... while` loop of the combined grid runs on fuel.
* An image is a value: the sub-image does not share its pixels with the frame it was cut
  from, so drawing on `image_roi_` leaves `input_bridge_` as it was.
-/

namespace industrial_extrinsic_cal

/-! ## Basic types -/

/-- Integer pixel position, `cv::Point`. -/
structure Point where
  x : Int
  y : Int
deriving DecidableEq, Repr

/-- Sub-pixel position, `cv::Point2f`. -/
structure Point2f where
  x : ℚ
  y : ℚ
deriving DecidableEq

/-- Rectangle `cv::Rect`. -/
structure Rect where
  x : Int
  y : Int
  width : Int
  height : Int
deriving DecidableEq, Repr

/-- Grid size `cv::Size`; the constructor takes the width (columns) first. -/
structure Size where
  width : Int
  height : Int
deriving DecidableEq, Repr

/-- Image `cv::Mat` (mono8): its header dimensions and its pixel bytes. -/
structure Mat where
  rows : Int
  cols : Int
  data : List Nat
deriving DecidableEq, Repr

/-- Region of interest as the caller passes it to `addTarget`. -/
structure Roi where
  x_min : Int
  x_max : Int
  y_min : Int
  y_max : Int
deriving DecidableEq, Repr

/-- Cost function tag (an enumeration declared outside this file). -/
abbrev Cost_function := Int

/-- Chessboard geometry of a target. -/
structure CheckerBoardParameters where
  pattern_rows : Int
  pattern_cols : Int
deriving DecidableEq, Repr

/-- Circle grid geometry of a target, with the sub-grid geometry of a combined grid. -/
structure CircleGridParameters where
  pattern_rows : Int
  pattern_cols : Int
  is_symmetric : Bool
  subpattern_rows : Int
  subpattern_cols : Int
deriving DecidableEq, Repr

/-- The members of `Target` that the observer reads. -/
structure Target where
  target_type_ : Int
  checker_board_parameters_ : CheckerBoardParameters
  circle_grid_parameters_ : CircleGridParameters
deriving DecidableEq, Repr

/-- One correspondence record, `Observation`. -/
structure Observation where
  target : Option Target
  point_id : Int
  image_loc_x : ℚ
  image_loc_y : ℚ
  cost_type : Cost_function
deriving DecidableEq

/-- The list handed back to the caller, `CameraObservations`. -/
abbrev CameraObservations := List Observation

namespace pattern_options

/-- Modelled from the spec: the enumeration `pattern_options` is declared in a header
that is not among the sources; its options are numbered from 0 in the order
Chessboard, CircleGrid, CombinedCircleGrid, ARtag. -/
def Chessboard : Int := 0

/-- Modelled from the spec: second option of `pattern_options`. -/
def CircleGrid : Int := 1

/-- Modelled from the spec: third option of `pattern_options`. -/
def CombinedCircleGrid : Int := 2

/-- Modelled from the spec: fourth option of `pattern_options`. -/
def ARtag : Int := 3

end pattern_options

/-! ## OpenCV constants and conversions

The flag words are bit sets, kept as natural numbers. -/

/-- OpenCV flag `cv::CALIB_CB_ADAPTIVE_THRESH`. -/
def CALIB_CB_ADAPTIVE_THRESH : Nat := 1

/-- OpenCV flag `cv::CALIB_CB_SYMMETRIC_GRID`. -/
def CALIB_CB_SYMMETRIC_GRID : Nat := 1

/-- OpenCV flag `cv::CALIB_CB_ASYMMETRIC_GRID`. -/
def CALIB_CB_ASYMMETRIC_GRID : Nat := 2

/-- OpenCV flag `cv::CALIB_CB_CLUSTERING`. -/
def CALIB_CB_CLUSTERING : Nat := 4

/-- Rounding `cvRound`: nearest integer, ties to the even one. For `v = num / den` in
lowest terms the floor is `num / den` and the fractional part is `(num % den) / den`. -/
def cvRound (v : ℚ) : Int :=
  let f := v.num / (v.den : Int)
  let r := v.num % (v.den : Int)
  if 2 * r < (v.den : Int) then f
  else if (v.den : Int) < 2 * r then f + 1
  else if f % 2 = 0 then f else f + 1

/-- Conversion that C++ applies when a `float` is assigned to an `int`: truncation towards zero. -/
def truncToInt (v : ℚ) : Int :=
  Int.tdiv v.num (v.den : Int)

/-- Conversion `cv::Point2f` to `cv::Point` (OpenCV rounds each coordinate with `cvRound`). -/
def Point2f.toPoint (p : Point2f) : Point :=
  { x := cvRound p.x, y := cvRound p.y }

/-- Ways in which a call does not return. -/
inductive Fault where
  | nullPointer
  | outOfRange
  | cvException
  | strayIterator
  | outOfFuel
deriving DecidableEq, Repr

/-- Value of an `int` expression: the mathematical result wrapped to 32 bits (two's
complement), which is what the compiled subtraction leaves when it overflows. -/
def int32 (z : Int) : Int :=
  (z + 2147483648) % 4294967296 - 2147483648

/-! ## The point comparator and `std::sort` -/

/-- Comparator `combinedtarget_points_sorter::operator()`. -/
def combinedtarget_points_sorter (lhs rhs : Point) : Bool :=
  decide (lhs.y < rhs.y) || decide (lhs.x < rhs.x)

/-- The comparator as `std::sort` applies it to the `cv::Point2f` elements of the buffer:
both arguments are converted to `cv::Point` first. -/
def comparePoints (lhs rhs : Point2f) : Bool :=
  combinedtarget_points_sorter lhs.toPoint rhs.toPoint

/-- Inner loop of the insertion, `__unguarded_linear_insert`: the sorted range is given
last element first; `val` moves towards the front while `comp val next` holds. -/
def unguardedLinearInsert {α : Type} (comp : α → α → Bool) (val : α) : List α → List α
  | [] => [val]
  | next :: front =>
    if comp val next then next :: unguardedLinearInsert comp val front
    else val :: next :: front

/-- One step of `__insertion_sort`: insert `val` into the sorted range `sorted`
(first element first). When `comp val first` holds the value goes to the front,
otherwise the unguarded insertion runs from the back. -/
def insertStep {α : Type} (comp : α → α → Bool) (sorted : List α) (val : α) : List α :=
  match sorted with
  | [] => [val]
  | first :: _ =>
    if comp val first then val :: sorted
    else (unguardedLinearInsert comp val sorted.reverse).reverse

/-- Routine `__insertion_sort(first, last, comp)` of libstdc++ over a whole vector. -/
def insertionSort {α : Type} (comp : α → α → Bool) (v : List α) : List α :=
  v.foldl (insertStep comp) []

/-- The point-ordering step of `getObservations`,
`std::sort(observation_pts_.begin(), observation_pts_.end(), combinedtarget_points_sorter())`,
on a buffer of at most 16 points, where `std::sort` is `__insertion_sort` and nothing else
(see `stdSort`). -/
def sortPoints (pts : List Point2f) : List Point2f :=
  insertionSort comparePoints pts

/-! ## `std::sort` on more than 16 elements -/

/-- Dereference of an iterator at offset `i` from the start of the vector. Inside
`std::sort` nothing checks the offset; a dereference outside the vector is undefined
behaviour and is reported as a fault. -/
def iterRead {α : Type} (v : List α) (i : Nat) : Except Fault α :=
  match v[i]? with
  | some a => .ok a
  | none => .error Fault.strayIterator

/-- Exchange `std::iter_swap(a, b)` of two elements of the vector. -/
def iterSwap {α : Type} (v : List α) (a b : Nat) : Except Fault (List α) :=
  match iterRead v a, iterRead v b with
  | .ok x, .ok y => .ok ((v.set a y).set b x)
  | .error e, _ => .error e
  | _, .error e => .error e

/-- Routine `__move_median_to_first(result, a, b, c, comp)`. -/
def moveMedianToFirst {α : Type} (comp : α → α → Bool) (v : List α) (result a b c : Nat) :
    Except Fault (List α) :=
  match iterRead v a, iterRead v b, iterRead v c with
  | .ok x, .ok y, .ok z =>
    if comp x y then
      if comp y z then iterSwap v result b
      else if comp x z then iterSwap v result c
      else iterSwap v result a
    else if comp x z then iterSwap v result a
    else if comp y z then iterSwap v result c
    else iterSwap v result b
  | .error e, _, _ => .error e
  | _, .error e, _ => .error e
  | _, _, .error e => .error e

/-- Inner loop `while (comp(first, pivot)) ++first;` of `__unguarded_partition`: the position
at which it stops. Nothing bounds `first`; the count of steps left is the size of the vector
plus one, which the loop cannot use up without leaving the vector. -/
def scanUp {α : Type} (comp : α → α → Bool) (v : List α) (pivot : Nat) : Nat → Nat →
    Except Fault Nat
  | 0, _ => .error Fault.outOfFuel
  | steps + 1, first =>
    match iterRead v first, iterRead v pivot with
    | .ok x, .ok p => if comp x p then scanUp comp v pivot steps (first + 1) else .ok first
    | .error e, _ => .error e
    | _, .error e => .error e

/-- Inner loop `while (comp(pivot, last)) --last;` of `__unguarded_partition`: the position
at which it stops. Stepping below the first element leaves the vector. -/
def scanDown {α : Type} (comp : α → α → Bool) (v : List α) (pivot : Nat) : Nat → Nat →
    Except Fault Nat
  | 0, _ => .error Fault.outOfFuel
  | steps + 1, last =>
    match iterRead v pivot, iterRead v last with
    | .ok p, .ok x =>
      if comp p x then
        match last with
        | 0 => .error Fault.strayIterator
        | l + 1 => scanDown comp v pivot steps l
      else .ok last
    | .error e, _ => .error e
    | _, .error e => .error e

/-- Routine `__unguarded_partition(first, last, pivot, comp)`: the vector afterwards and the
returned position. Each round of the outer loop moves `first` up and `last` down, so the
size of the vector plus one bounds the rounds. -/
def unguardedPartition {α : Type} (comp : α → α → Bool) (pivot : Nat) : Nat → List α → Nat →
    Nat → Except Fault (List α × Nat)
  | 0, _, _, _ => .error Fault.outOfFuel
  | rounds + 1, v, first, last =>
    match scanUp comp v pivot (v.length + 1) first with
    | .error e => .error e
    | .ok f =>
      match last with
      | 0 => .error Fault.strayIterator
      | l0 + 1 =>
        match scanDown comp v pivot (v.length + 1) l0 with
        | .error e => .error e
        | .ok l =>
          if f < l then
            match iterSwap v f l with
            | .error e => .error e
            | .ok w => unguardedPartition comp pivot rounds w (f + 1) l
          else .ok (v, f)

/-- Routine `__unguarded_partition_pivot(first, last, comp)`. -/
def unguardedPartitionPivot {α : Type} (comp : α → α → Bool) (v : List α) (first last : Nat) :
    Except Fault (List α × Nat) :=
  let mid := first + (last - first) / 2
  match moveMedianToFirst comp v first (first + 1) mid (last - 1) with
  | .error e => .error e
  | .ok w => unguardedPartition comp first (w.length + 1) w (first + 1) last

/-- Routine `__push_heap(first, holeIndex, topIndex, value, comp)` on the heap `h` (the
range that starts at `first`). -/
def pushHeap {α : Type} (comp : α → α → Bool) (topIndex : Nat) (value : α) : Nat → List α →
    Nat → Except Fault (List α)
  | 0, _, _ => .error Fault.outOfFuel
  | steps + 1, h, holeIndex =>
    let parent := (holeIndex - 1) / 2
    if topIndex < holeIndex then
      match iterRead h parent with
      | .error e => .error e
      | .ok p =>
        if comp p value then pushHeap comp topIndex value steps (h.set holeIndex p) parent
        else .ok (h.set holeIndex value)
    else .ok (h.set holeIndex value)

/-- The `while (secondChild < (len - 1) / 2)` loop of `__adjust_heap`: the heap afterwards
with the final `holeIndex` (which equals `secondChild`). -/
def siftDown {α : Type} (comp : α → α → Bool) (len : Nat) : Nat → List α → Nat →
    Except Fault (List α × Nat)
  | 0, _, _ => .error Fault.outOfFuel
  | steps + 1, h, holeIndex =>
    if holeIndex < (len - 1) / 2 then
      let right := 2 * (holeIndex + 1)
      match iterRead h right, iterRead h (right - 1) with
      | .ok r, .ok l =>
        let child := if comp r l then right - 1 else right
        match iterRead h child with
        | .error e => .error e
        | .ok c => siftDown comp len steps (h.set holeIndex c) child
      | .error e, _ => .error e
      | _, .error e => .error e
    else .ok (h, holeIndex)

/-- Routine `__adjust_heap(first, holeIndex, len, value, comp)`. The test
`secondChild == (len - 2) / 2` is made in signed arithmetic, so it fails for `len = 0`. -/
def adjustHeap {α : Type} (comp : α → α → Bool) (h : List α) (holeIndex len : Nat) (value : α) :
    Except Fault (List α) :=
  match siftDown comp len (len + 1) h holeIndex with
  | .error e => .error e
  | .ok (h1, hole) =>
    if len % 2 = 0 ∧ 2 ≤ len ∧ hole = (len - 2) / 2 then
      let secondChild := 2 * (hole + 1)
      match iterRead h1 (secondChild - 1) with
      | .error e => .error e
      | .ok c =>
        pushHeap comp holeIndex value (len + 1) (h1.set hole c) (secondChild - 1)
    else pushHeap comp holeIndex value (len + 1) h1 hole

/-- The loop of `__make_heap` from `parent` down to 0. -/
def makeHeapFrom {α : Type} (comp : α → α → Bool) (len : Nat) : Nat → List α →
    Except Fault (List α)
  | parent, h =>
    match iterRead h parent with
    | .error e => .error e
    | .ok value =>
      match adjustHeap comp h parent len value with
      | .error e => .error e
      | .ok h1 =>
        match parent with
        | 0 => .ok h1
        | p + 1 => makeHeapFrom comp len p h1

/-- Routine `__make_heap(first, last, comp)` on the range `h`. -/
def makeHeap {α : Type} (comp : α → α → Bool) (h : List α) : Except Fault (List α) :=
  if h.length < 2 then .ok h else makeHeapFrom comp h.length ((h.length - 2) / 2) h

/-- Routine `__sort_heap(first, last, comp)`: `last` is the current end of the heap; each
round takes the top to position `last - 1` with `__pop_heap`. -/
def sortHeap {α : Type} (comp : α → α → Bool) : Nat → List α → Except Fault (List α)
  | 0, h => .ok h
  | 1, h => .ok h
  | last + 1, h =>
    match iterRead h last, iterRead h 0 with
    | .ok value, .ok top =>
      match adjustHeap comp (h.set last top) 0 last value with
      | .error e => .error e
      | .ok h1 => sortHeap comp last h1
    | .error e, _ => .error e
    | _, .error e => .error e

/-- Routine `__partial_sort(first, last, last, comp)` on the range `first .. last` of the
vector: `__heap_select` makes the heap (its selection loop is empty) and `__sort_heap`
sorts it. -/
def partialSort {α : Type} (comp : α → α → Bool) (v : List α) (first last : Nat) :
    Except Fault (List α) :=
  let h := (v.take last).drop first
  match makeHeap comp h with
  | .error e => .error e
  | .ok h1 =>
    match sortHeap comp h1.length h1 with
    | .error e => .error e
    | .ok h2 => .ok (v.take first ++ h2 ++ v.drop last)

/-- Routine `__introsort_loop(first, last, depth_limit, comp)`. The loop handles the range
`first .. cut` in its next round, with the same decremented depth limit that the recursive
call on `cut .. last` receives. -/
def introsortLoop {α : Type} (comp : α → α → Bool) : Nat → List α → Nat → Nat →
    Except Fault (List α)
  | 0, v, first, last =>
    if first + 16 < last then partialSort comp v first last else .ok v
  | depth_limit + 1, v, first, last =>
    if first + 16 < last then
      match unguardedPartitionPivot comp v first last with
      | .error e => .error e
      | .ok (v1, cut) =>
        match introsortLoop comp depth_limit v1 cut last with
        | .error e => .error e
        | .ok v2 => introsortLoop comp depth_limit v2 first cut
    else .ok v

/-- Routine `__unguarded_linear_insert` where nothing stops the scan at the start of the
vector: the elements before the inserted one are given last element first, and running out
of them means a dereference before the first element. -/
def unguardedLinearInsertChecked {α : Type} (comp : α → α → Bool) (val : α) : List α →
    Except Fault (List α)
  | [] => .error Fault.strayIterator
  | next :: front =>
    if comp val next then
      match unguardedLinearInsertChecked comp val front with
      | .error e => .error e
      | .ok rest => .ok (next :: rest)
    else .ok (val :: next :: front)

/-- Routine `__unguarded_insertion_sort(first, last, comp)`: `done` holds the elements
before `first`, `todo` those from `first` on. -/
def unguardedInsertionSort {α : Type} (comp : α → α → Bool) : List α → List α →
    Except Fault (List α)
  | done, [] => .ok done
  | done, val :: todo =>
    match unguardedLinearInsertChecked comp val done.reverse with
    | .error e => .error e
    | .ok r => unguardedInsertionSort comp r.reverse todo

/-- Routine `__final_insertion_sort(first, last, comp)` on more than 16 elements. -/
def finalInsertionSort {α : Type} (comp : α → α → Bool) (v : List α) : Except Fault (List α) :=
  unguardedInsertionSort comp (insertionSort comp (v.take 16)) (v.drop 16)

/-- Halving loop behind `__lg`: the number of times `n` can be halved before it drops
below 2, within `steps` rounds. -/
def lgLoop : Nat → Nat → Nat
  | 0, _ => 0
  | steps + 1, n => if 2 ≤ n then lgLoop steps (n / 2) + 1 else 0

/-- Routine `std::__lg(n)`: the position of the highest set bit of `n`, that is the binary
logarithm rounded down. -/
def lg (n : Nat) : Nat :=
  lgLoop n n

/-- What `std::sort` does to a vector of more than 16 elements: `__introsort_loop` with depth
limit `2 * __lg(n)` followed by `__final_insertion_sort`. -/
def sortLong {α : Type} (comp : α → α → Bool) (v : List α) : Except Fault (List α) :=
  match introsortLoop comp (2 * lg v.length) v 0 v.length with
  | .error e => .error e
  | .ok v1 => finalInsertionSort comp v1

/-- Library routine `std::sort(first, last, comp)` over a whole vector, as libstdc++
(GCC 4.9 and later) implements it: up to 16 elements `__insertion_sort` alone, above that
the partitioning path. -/
def stdSort {α : Type} (comp : α → α → Bool) (v : List α) : Except Fault (List α) :=
  if v.length ≤ 16 then .ok (insertionSort comp v) else sortLong comp v

/-- The point-ordering step of `getObservations` on a buffer of any size; for at most 16
points it is `sortPoints`. -/
def sortObservationPts (pts : List Point2f) : Except Fault (List Point2f) :=
  stdSort comparePoints pts

/-! ## Environment, faults and the observer object -/

/-- Everything `getObservations` calls in OpenCV, as functions of their inputs. -/
structure Env where
  /-- Sub-image extraction `cv::Mat::operator()(const cv::Rect&)`; `none` when OpenCV throws
  instead of returning (it asserts that the rectangle lies within the image). -/
  subImage : Mat → Rect → Option Mat
  /-- Detector `cv::findChessboardCorners(image, patternSize, corners, flags)`:
  its return value and the corners it leaves in the output vector. -/
  findChessboardCorners : Mat → Size → Nat → Bool × List Point2f
  /-- Detector `cv::findCirclesGrid(image, patternSize, centers, flags)`:
  its return value and the centers it leaves in the output vector. -/
  findCirclesGrid : Mat → Size → Nat → Bool × List Point2f
  /-- Drawing `cv::fillConvexPoly(img, pts, npts, color)`. -/
  fillConvexPoly : Mat → List Point → List Int → Mat
  /-- Drawing `cv::circle(img, center, radius, color, thickness)`. -/
  circle : Mat → Point → Int → Int → Int → Mat
  /-- Drawing `cv::line(img, pt1, pt2, color, thickness)`. -/
  line : Mat → Point → Point → Int → Int → Mat
  /-- What an unchecked `operator[]` reads at an index outside the vector. -/
  outOfRange : Int → Point2f

/-- Calls that leave the observer, in the order in which they happen (bookkeeping that the
C++ object does not hold: it makes "no detector ran" a statement about the state). -/
inductive Event where
  | findChessboardCorners (image : Mat) (patternSize : Size) (flags : Nat)
  | findCirclesGrid (image : Mat) (patternSize : Size) (flags : Nat)
  | publish (image : Mat)
deriving DecidableEq, Repr

/-- Member variables of `ROSCameraObserver` that `addTarget` and `getObservations` use. -/
structure ROSCameraObserver where
  sym_circle_ : Bool
  pattern_ : Int
  pattern_rows_ : Int
  pattern_cols_ : Int
  subpattern_rows_ : Int
  subpattern_cols_ : Int
  cost_type_ : Cost_function
  instance_target_ : Option Target
  input_roi_ : Rect
  input_bridge_ : Option Mat
  out_bridge_ : Option Mat
  image_roi_ : Mat
  observation_pts_ : List Point2f
  camera_obs_ : CameraObservations
  trace_ : List Event
deriving DecidableEq

/-- Unchecked access `v[i]` of `std::vector<cv::Point2f>`. -/
def vecIndex (env : Env) (v : List Point2f) (i : Int) : Point2f :=
  if 0 ≤ i then (v[i.toNat]?).getD (env.outOfRange i) else env.outOfRange i

/-- Checked access `v.at(i)`: throws `std::out_of_range` outside the vector. -/
def vecAt {α : Type} (v : List α) (i : Nat) : Except Fault α :=
  match v[i]? with
  | some a => .ok a
  | none => .error Fault.outOfRange

/-- Resizing `v.resize(n)`: keeps the first `n` elements and pads with value-initialised ones. -/
def vecResize {α : Type} (dflt : α) (v : List α) (n : Nat) : List α :=
  v.take n ++ List.replicate (n - v.length) dflt

/-- Value-initialised `Observation`. -/
def Observation.zero : Observation :=
  { target := none, point_id := 0, image_loc_x := 0, image_loc_y := 0, cost_type := 0 }

/-! ## `addTarget` -/

/-- Member function `ROSCameraObserver::addTarget`: the returned flag and the observer afterwards. -/
def addTarget (s : ROSCameraObserver) (targ : Target) (roi : Roi) (cost_type : Cost_function) :
    Bool × ROSCameraObserver :=
  let s1 := { s with cost_type_ := cost_type, instance_target_ := some targ }
  let chosen : Option Int :=
    if targ.target_type_ = pattern_options.Chessboard then some pattern_options.Chessboard
    else if targ.target_type_ = pattern_options.CircleGrid then some pattern_options.CircleGrid
    else if targ.target_type_ = pattern_options.CombinedCircleGrid then
      some pattern_options.CombinedCircleGrid
    else if targ.target_type_ = pattern_options.ARtag then some pattern_options.ARtag
    else none
  match chosen with
  | none => (false, s1)
  | some pat =>
    let s2 := { s1 with pattern_ := pat }
    if s2.pattern_ ≠ 0 ∧ s2.pattern_ ≠ 1 ∧ s2.pattern_ ≠ 2 then (false, s2)
    else
      let sized : Option ROSCameraObserver :=
        if s2.pattern_ = pattern_options.Chessboard then
          some { s2 with
            pattern_rows_ := targ.checker_board_parameters_.pattern_rows
            pattern_cols_ := targ.checker_board_parameters_.pattern_cols }
        else if s2.pattern_ = pattern_options.CircleGrid then
          some { s2 with
            pattern_rows_ := targ.circle_grid_parameters_.pattern_rows
            pattern_cols_ := targ.circle_grid_parameters_.pattern_cols
            sym_circle_ := targ.circle_grid_parameters_.is_symmetric }
        else if s2.pattern_ = pattern_options.CombinedCircleGrid then
          some { s2 with
            pattern_rows_ := targ.circle_grid_parameters_.pattern_rows
            pattern_cols_ := targ.circle_grid_parameters_.pattern_cols
            subpattern_rows_ := targ.circle_grid_parameters_.subpattern_rows
            subpattern_cols_ := targ.circle_grid_parameters_.subpattern_cols }
        else none
      match sized with
      | none => (false, s2)
      | some s3 =>
        (true, { s3 with
          input_roi_ :=
            { x := roi.x_min
              y := roi.y_min
              width := int32 (roi.x_max - roi.x_min)
              height := int32 (roi.y_max - roi.y_min) } })

/-- Member function `ROSCameraObserver::clearTargets`. -/
def clearTargets (s : ROSCameraObserver) : ROSCameraObserver :=
  { s with instance_target_ := none }

/-- Member function `ROSCameraObserver::clearObservations`. -/
def clearObservations (s : ROSCameraObserver) : ROSCameraObserver :=
  { s with camera_obs_ := [] }

/-- Member function `ROSCameraObserver::observationsDone`. -/
def observationsDone (s : ROSCameraObserver) : Bool :=
  s.input_bridge_.isSome

/-! ## `getObservations` -/

/-- The size test at the head of `getObservations`:
`image.cols < input_roi_.width || image.rows < input_roi_.height`. -/
def roiTooBig (frame : Mat) (r : Rect) : Bool :=
  decide (frame.cols < r.width) || decide (frame.rows < r.height)

/-- The four corner points pushed into `observation_corner_pnts`, in the order of the
`push_back` calls; each `cv::Point2f` is converted to `cv::Point`. -/
def cornerPoints (env : Env) (subpattern_rows_ subpattern_cols_ : Int)
    (observation_pts_tmp : List Point2f) : List Point :=
  [ (vecIndex env observation_pts_tmp 0).toPoint,
    (vecIndex env observation_pts_tmp (subpattern_cols_ - 1)).toPoint,
    (vecIndex env observation_pts_tmp ((subpattern_rows_ - 1) * subpattern_cols_)).toPoint,
    (vecIndex env observation_pts_tmp ((subpattern_rows_ * subpattern_cols_) - 1)).toPoint ]

/-- The call of the sub-grid detector inside the loop:
`cv::findCirclesGrid(image_roi_, subpattern_size, observation_pts_tmp, cv::CALIB_CB_SYMMETRIC_GRID)`
with `subpattern_size(subpattern_cols_, subpattern_rows_)`. -/
def findSubGrid (env : Env) (subpattern_rows_ subpattern_cols_ : Int) (img : Mat) :
    Bool × List Point2f :=
  env.findCirclesGrid img { width := subpattern_cols_, height := subpattern_rows_ }
    CALIB_CB_SYMMETRIC_GRID

/-- Masking of a found sub-grid: `fillConvexPoly` over its four corner points with
`cv::Scalar(255,255,255)`. -/
def maskFound (env : Env) (subpattern_rows_ subpattern_cols_ : Int) (img : Mat)
    (observation_pts_tmp : List Point2f) : Mat :=
  env.fillConvexPoly img
    (cornerPoints env subpattern_rows_ subpattern_cols_ observation_pts_tmp) [255, 255, 255]

/-- The detect-and-mask loop `do { ... } while (successful_find_tmp)` with its counter
`successes`; one unit of fuel per detector call. -/
def detectAndMask (env : Env) : Nat → ROSCameraObserver → Int →
    Except Fault (ROSCameraObserver × Int)
  | 0, _, _ => .error Fault.outOfFuel
  | fuel + 1, s, successes =>
    let found := findSubGrid env s.subpattern_rows_ s.subpattern_cols_ s.image_roi_
    let s1 := { s with
      trace_ := s.trace_ ++ [Event.findCirclesGrid s.image_roi_
        { width := s.subpattern_cols_, height := s.subpattern_rows_ } CALIB_CB_SYMMETRIC_GRID] }
    if found.1 then
      detectAndMask env fuel
        { s1 with
          observation_pts_ := s1.observation_pts_ ++ found.2
          image_roi_ :=
            maskFound env s1.subpattern_rows_ s1.subpattern_cols_ s1.image_roi_ found.2 }
        (successes + 1)
    else .ok (s1, successes)

/-- The `switch (pattern_)` of `getObservations`: runs the detector of the configured
pattern and yields the observer afterwards with the flag `successful_find`. -/
def detectPattern (env : Env) (fuel : Nat) (s : ROSCameraObserver) :
    Except Fault (ROSCameraObserver × Bool) :=
  let pattern_size : Size := { width := s.pattern_cols_, height := s.pattern_rows_ }
  if s.pattern_ = pattern_options.Chessboard then
    let found := env.findChessboardCorners s.image_roi_ pattern_size CALIB_CB_ADAPTIVE_THRESH
    .ok ({ s with
      observation_pts_ := found.2
      trace_ := s.trace_ ++
        [Event.findChessboardCorners s.image_roi_ pattern_size CALIB_CB_ADAPTIVE_THRESH] },
      found.1)
  else if s.pattern_ = pattern_options.CircleGrid then
    let flags : Nat :=
      if s.sym_circle_ then CALIB_CB_SYMMETRIC_GRID
      else CALIB_CB_ASYMMETRIC_GRID ||| CALIB_CB_CLUSTERING
    let found := env.findCirclesGrid s.image_roi_ pattern_size flags
    .ok ({ s with
      observation_pts_ := found.2
      trace_ := s.trace_ ++ [Event.findCirclesGrid s.image_roi_ pattern_size flags] },
      found.1)
  else if s.pattern_ = pattern_options.CombinedCircleGrid then
    match detectAndMask env fuel s 0 with
    | .error e => .error e
    | .ok (s1, successes) =>
      if 0 < successes then
        match sortObservationPts s1.observation_pts_ with
        | .error e => .error e
        | .ok sorted => .ok ({ s1 with observation_pts_ := sorted }, true)
      else .ok (s1, false)
  else .ok (s, false)

/-- The loop that draws a circle at every point of the buffer. -/
def drawPoints (env : Env) (img : Mat) (pts : List Point2f) : Mat :=
  pts.foldl (fun im q => env.circle im { x := truncToInt q.x, y := truncToInt q.y } 10 255 5) img

/-- The line through the first row of points. In `observation_pts_.size() > pattern_cols_`
the `int` is converted to the unsigned 64-bit size type. -/
def drawFirstRow (env : Env) (s : ROSCameraObserver) : Mat :=
  if s.pattern_cols_ % 2 ^ 64 < (s.observation_pts_.length : Int) then
    let a := vecIndex env s.observation_pts_ 0
    let b := vecIndex env s.observation_pts_ (s.pattern_cols_ - 1)
    env.line s.image_roi_ { x := truncToInt a.x, y := truncToInt a.y }
      { x := truncToInt b.x, y := truncToInt b.y } 255 3
  else s.image_roi_

/-- Assignment `out_bridge_->image = image_roi_` followed by
`results_pub_.publish(out_bridge_->toImageMsg())`. -/
def publishRoi (s : ROSCameraObserver) : Except Fault ROSCameraObserver :=
  match s.out_bridge_ with
  | none => .error Fault.nullPointer
  | some _ =>
    .ok { s with
      out_bridge_ := some s.image_roi_
      trace_ := s.trace_ ++ [Event.publish s.image_roi_] }

/-- The copy loop `for (int i = 0; i < observation_pts_.size(); i++)`: `todo` iterations
are left and `i` is the loop variable. -/
def copyObservations (s : ROSCameraObserver) : Nat → Nat → CameraObservations →
    Except Fault CameraObservations
  | 0, _, obs => .ok obs
  | todo + 1, i, obs =>
    match vecAt obs i, vecAt s.observation_pts_ i with
    | .ok o, .ok p =>
      copyObservations s todo (i + 1)
        (obs.set i { o with
          target := s.instance_target_
          point_id := (i : Int)
          image_loc_x := p.x
          image_loc_y := p.y
          cost_type := s.cost_type_ })
    | _, _ => .error Fault.outOfRange

/-- Member function `ROSCameraObserver::getObservations`: the returned `int`, the observer
afterwards and the caller's `cam_obs` afterwards. -/
def getObservations (env : Env) (fuel : Nat) (s : ROSCameraObserver)
    (cam_obs : CameraObservations) :
    Except Fault (Int × ROSCameraObserver × CameraObservations) :=
  match s.input_bridge_ with
  | none => .error Fault.nullPointer
  | some frame =>
    if roiTooBig frame s.input_roi_ then .ok (0, s, cam_obs)
    else
      match env.subImage frame s.input_roi_ with
      | none => .error Fault.cvException
      | some sub =>
        let s1 := { s with image_roi_ := sub, observation_pts_ := [] }
        match detectPattern env fuel s1 with
        | .error e => .error e
        | .ok (s2, successful_find) =>
          let s3 := { s2 with image_roi_ := drawPoints env s2.image_roi_ s2.observation_pts_ }
          let s4 := { s3 with image_roi_ := drawFirstRow env s3 }
          match publishRoi s4 with
          | .error e => .error e
          | .ok s5 =>
            if !successful_find then
              let s6 := { s5 with
                image_roi_ := env.circle s5.image_roi_
                  { x := Int.tdiv s5.image_roi_.cols 2, y := Int.tdiv s5.image_roi_.rows 2 }
                  10 255 10 }
              match publishRoi s6 with
              | .error e => .error e
              | .ok s7 => .ok (0, s7, cam_obs)
            else
              let n := s5.observation_pts_.length
              match copyObservations s5 n 0 (vecResize Observation.zero s5.camera_obs_ n) with
              | .error e => .error e
              | .ok obs =>
                let s6 := { s5 with camera_obs_ := obs }
                .ok (1, s6, s6.camera_obs_)

/-! ## Notions used to state the properties -/

/-- Lexicographic order on (y, x): first by row, then by column within a row. -/
def lexicographicYX (a b : Point) : Prop :=
  a.y < b.y ∨ (a.y = b.y ∧ a.x < b.x)

/-- Cross product of the edge from `a` to `b` with the edge from `b` to `c`. -/
def edgeCross (a b c : Point) : Int :=
  (b.x - a.x) * (c.y - b.y) - (b.y - a.y) * (c.x - b.x)

/-- Cross products of consecutive edges of the closed polygon through the given
vertices, taken in the given order. -/
def edgeCrosses (poly : List Point) : List Int :=
  match poly with
  | [p0, p1, p2, p3] =>
    [edgeCross p0 p1 p2, edgeCross p1 p2 p3, edgeCross p2 p3 p0, edgeCross p3 p0 p1]
  | _ => []

/-- Four vertices are the consecutive boundary vertices of a convex quadrilateral: the
cross products of consecutive edges all have the same non-zero sign. -/
def convexInOrder (poly : List Point) : Bool :=
  poly.length == 4 &&
    ((edgeCrosses poly).all (fun c => decide (0 < c)) ||
      (edgeCrosses poly).all (fun c => decide (c < 0)))

/-- The working image at the start of pass `j` of the detect-and-mask loop, when every
earlier pass found a sub-grid: pass `j + 1` sees the image of pass `j` with the sub-grid
found there masked. -/
def workingImage (env : Env) (subpattern_rows_ subpattern_cols_ : Int) (img : Mat) : Nat → Mat
  | 0 => img
  | j + 1 =>
    maskFound env subpattern_rows_ subpattern_cols_
      (workingImage env subpattern_rows_ subpattern_cols_ img j)
      (findSubGrid env subpattern_rows_ subpattern_cols_
        (workingImage env subpattern_rows_ subpattern_cols_ img j)).2

/-! ## Sample data -/

/-- A small environment: the sub-image is extracted when the rectangle lies within the
image, as OpenCV asserts; an image is found to hold a chessboard when its first byte is 1;
a sub-grid of one circle is found as long as fewer than two regions are masked, and masking
prepends a byte. A failed chessboard search still leaves one point behind. -/
def sampleEnv : Env where
  subImage := fun img r =>
    if 0 ≤ r.x ∧ 0 ≤ r.width ∧ r.x + r.width ≤ img.cols ∧
        0 ≤ r.y ∧ 0 ≤ r.height ∧ r.y + r.height ≤ img.rows then
      some { rows := r.height, cols := r.width, data := img.data }
    else none
  findChessboardCorners := fun img _ _ =>
    if img.data.head? = some 1 then (true, [⟨3, 4⟩, ⟨5, 4⟩]) else (false, [⟨7, 9⟩])
  findCirclesGrid := fun img _ _ =>
    if img.data.length < 2 then (true, [⟨(img.data.length : Int), 6⟩]) else (false, [])
  fillConvexPoly := fun img _ _ => { img with data := 0 :: img.data }
  circle := fun img _ _ _ _ => img
  line := fun img _ _ _ _ => img
  outOfRange := fun _ => ⟨0, 0⟩

/-- A chessboard target of 1 x 2 corners that also carries a combined grid of 1 x 1 sub-grids. -/
def sampleTarget : Target where
  target_type_ := pattern_options.Chessboard
  checker_board_parameters_ := { pattern_rows := 1, pattern_cols := 2 }
  circle_grid_parameters_ :=
    { pattern_rows := 1, pattern_cols := 2, is_symmetric := true,
      subpattern_rows := 1, subpattern_cols := 1 }

/-- A freshly constructed observer (chessboard, no rows or columns) that holds an 8 x 8 frame. -/
def sampleObserver : ROSCameraObserver where
  sym_circle_ := true
  pattern_ := pattern_options.Chessboard
  pattern_rows_ := 0
  pattern_cols_ := 0
  subpattern_rows_ := 0
  subpattern_cols_ := 0
  cost_type_ := 0
  instance_target_ := none
  input_roi_ := { x := 0, y := 0, width := 0, height := 0 }
  input_bridge_ := some { rows := 8, cols := 8, data := [1] }
  out_bridge_ := some { rows := 8, cols := 8, data := [1] }
  image_roi_ := { rows := 0, cols := 0, data := [] }
  observation_pts_ := []
  camera_obs_ := []
  trace_ := []

/-- The sample target configured as a combined grid. -/
def combinedTarget : Target :=
  { sampleTarget with target_type_ := pattern_options.CombinedCircleGrid }

/-- The sample observer after `addTarget` with the chessboard target, ROI (0, 0)-(4, 4) and
cost type 7. -/
def chessObserver : ROSCameraObserver :=
  (addTarget sampleObserver sampleTarget { x_min := 0, x_max := 4, y_min := 0, y_max := 4 } 7).2

/-- The sample observer holding a frame without a chessboard, after the same `addTarget`. -/
def blankChessObserver : ROSCameraObserver :=
  (addTarget { sampleObserver with input_bridge_ := some { rows := 8, cols := 8, data := [] } }
    sampleTarget { x_min := 0, x_max := 4, y_min := 0, y_max := 4 } 7).2

/-- The sample observer holding a frame with two sub-grids, after `addTarget` with the
combined target. -/
def combinedObserver : ROSCameraObserver :=
  (addTarget { sampleObserver with input_bridge_ := some { rows := 8, cols := 8, data := [] } }
    combinedTarget { x_min := 0, x_max := 4, y_min := 0, y_max := 4 } 7).2

/-- The records that `chessObserver` hands back. -/
def chessRecords : CameraObservations :=
  [ { target := some sampleTarget, point_id := 0, image_loc_x := 3, image_loc_y := 4,
      cost_type := 7 },
    { target := some sampleTarget, point_id := 1, image_loc_x := 5, image_loc_y := 4,
      cost_type := 7 } ]

/-- The observer that `getObservations` leaves behind when started from `chessObserver`. -/
def chessAfter : ROSCameraObserver :=
  { chessObserver with
    image_roi_ := { rows := 4, cols := 4, data := [1] }
    observation_pts_ := [⟨3, 4⟩, ⟨5, 4⟩]
    out_bridge_ := some { rows := 4, cols := 4, data := [1] }
    camera_obs_ := chessRecords
    trace_ :=
      [ Event.findChessboardCorners { rows := 4, cols := 4, data := [1] }
          { width := 2, height := 1 } CALIB_CB_ADAPTIVE_THRESH,
        Event.publish { rows := 4, cols := 4, data := [1] } ] }

/-- The observer that `getObservations` leaves behind when started from `blankChessObserver`:
the failed search left one point in the buffer. -/
def blankChessAfter : ROSCameraObserver :=
  { blankChessObserver with
    image_roi_ := { rows := 4, cols := 4, data := [] }
    observation_pts_ := [⟨7, 9⟩]
    out_bridge_ := some { rows := 4, cols := 4, data := [] }
    trace_ :=
      [ Event.findChessboardCorners { rows := 4, cols := 4, data := [] }
          { width := 2, height := 1 } CALIB_CB_ADAPTIVE_THRESH,
        Event.publish { rows := 4, cols := 4, data := [] },
        Event.publish { rows := 4, cols := 4, data := [] } ] }

/-- First sub-grid of 2 x 3 circles of a combined target that is tilted by about three
degrees (each row rises by one pixel per circle to the right), in raster order. -/
def tiltedGridA : List Point2f :=
  [⟨50, 50⟩, ⟨70, 49⟩, ⟨90, 48⟩, ⟨51, 70⟩, ⟨71, 69⟩, ⟨91, 68⟩]

/-- Second sub-grid of the tilted target, to the right of the first. -/
def tiltedGridB : List Point2f :=
  [⟨150, 45⟩, ⟨170, 44⟩, ⟨190, 43⟩, ⟨151, 65⟩, ⟨171, 64⟩, ⟨191, 63⟩]

/-- Third sub-grid of the tilted target, to the right of the second. -/
def tiltedGridC : List Point2f :=
  [⟨250, 40⟩, ⟨270, 39⟩, ⟨290, 38⟩, ⟨251, 60⟩, ⟨271, 59⟩, ⟨291, 58⟩]

/-- The 18 points of the tilted target in the order in which the loop accumulates them. -/
def tiltedPoints : List Point2f :=
  tiltedGridA ++ tiltedGridB ++ tiltedGridC

/-- The sample environment with a circle-grid detector that finds the three sub-grids of the
tilted target one after the other, from left to right, and nothing after the third mask. -/
def tiltedEnv : Env :=
  { sampleEnv with
    findCirclesGrid := fun img _ _ =>
      match img.data.length with
      | 0 => (true, tiltedGridA)
      | 1 => (true, tiltedGridB)
      | 2 => (true, tiltedGridC)
      | _ => (false, []) }

/-- A combined target of 2 x 9 circles made of sub-grids of 2 x 3 circles. -/
def tiltedTarget : Target where
  target_type_ := pattern_options.CombinedCircleGrid
  checker_board_parameters_ := { pattern_rows := 0, pattern_cols := 0 }
  circle_grid_parameters_ :=
    { pattern_rows := 2, pattern_cols := 9, is_symmetric := true,
      subpattern_rows := 2, subpattern_cols := 3 }

/-- An observer that holds a 640 x 480 frame, after `addTarget` with the tilted target, the
whole frame as ROI and cost type 7. -/
def tiltedObserver : ROSCameraObserver :=
  (addTarget
    { sampleObserver with
      input_bridge_ := some { rows := 480, cols := 640, data := [] }
      out_bridge_ := some { rows := 480, cols := 640, data := [] } }
    tiltedTarget { x_min := 0, x_max := 640, y_min := 0, y_max := 480 } 7).2

/-! ## `std::sort` and `resize` -/

/-- The unguarded insertion only rearranges: its result is a permutation of the value and the range. -/
theorem unguardedLinearInsert_perm {α : Type} (comp : α → α → Bool) (val : α) (l : List α) :
    (unguardedLinearInsert comp val l).Perm (val :: l) := by
  induction l with
  | nil => simp [unguardedLinearInsert]
  | cons next front ih =>
    unfold unguardedLinearInsert
    split
    · exact ((List.Perm.cons next ih).trans (List.Perm.swap val next front))
    · exact List.Perm.refl _

/-- One insertion step yields a permutation of the value and the sorted range. -/
theorem insertStep_perm {α : Type} (comp : α → α → Bool) (sorted : List α) (val : α) :
    (insertStep comp sorted val).Perm (val :: sorted) := by
  cases sorted with
  | nil => simp [insertStep]
  | cons first rest =>
    simp only [insertStep]
    split
    · exact List.Perm.refl _
    · exact (List.reverse_perm _).trans
        ((unguardedLinearInsert_perm comp val _).trans
          (List.Perm.cons val (List.reverse_perm _)))

/-- Folding the insertion step over a vector permutes the accumulator followed by the vector. -/
theorem foldl_insertStep_perm {α : Type} (comp : α → α → Bool) (v acc : List α) :
    (v.foldl (insertStep comp) acc).Perm (acc ++ v) := by
  induction v generalizing acc with
  | nil => simp
  | cons a rest ih =>
    simp only [List.foldl_cons]
    refine (ih _).trans ?_
    refine (List.Perm.append_right rest (insertStep_perm comp acc a)).trans ?_
    simpa using (List.perm_middle : (acc ++ a :: rest).Perm (a :: (acc ++ rest))).symm

/-- The insertion sort returns a permutation of its input, whatever the comparator. -/
theorem insertionSort_perm {α : Type} (comp : α → α → Bool) (v : List α) :
    (insertionSort comp v).Perm v := by
  simpa [insertionSort] using foldl_insertStep_perm comp v []

/-- The point-ordering step keeps the number of points. -/
theorem sortPoints_length (pts : List Point2f) : (sortPoints pts).length = pts.length :=
  (insertionSort_perm comparePoints pts).length_eq

/-- On at most 16 points `std::sort` returns, and what it returns is `sortPoints`. -/
theorem sortObservationPts_short (pts : List Point2f) (h : pts.length ≤ 16) :
    sortObservationPts pts = .ok (sortPoints pts) := by
  simp [sortObservationPts, stdSort, sortPoints, h]

/-- After `resize(n)` the vector has `n` elements. -/
theorem vecResize_length {α : Type} (dflt : α) (v : List α) (n : Nat) :
    (vecResize dflt v n).length = n := by
  simp [vecResize]
  omega

/-! ## The comparator -/

/-- Claim C3, evaluated on the code: for a = (40, 60) and b = (100, 50) the comparator returns
true, although a lies on a lower row than b (a.y > b.y) and so does not precede b in the
lexicographic order on (y, x). -/
theorem sorter_true_on_lower_row :
    combinedtarget_points_sorter { x := 40, y := 60 } { x := 100, y := 50 } = true ∧
      ¬ lexicographicYX { x := 40, y := 60 } { x := 100, y := 50 } := by
  constructor
  · decide
  · unfold lexicographicYX
    decide

/-- Claim C8: the comparator is not asymmetric (for a = (40, 60) and b = (100, 50) both
comp(a, b) and comp(b, a) are true), so it is not a strict weak ordering; it holds exactly
when a.y < b.y OR a.x < b.x, which differs from the lexicographic compare on (y, x). -/
theorem sorter_not_strict_weak_order :
    (∃ a b : Point,
        combinedtarget_points_sorter a b = true ∧ combinedtarget_points_sorter b a = true) ∧
      (∀ a b : Point, combinedtarget_points_sorter a b = true ↔ (a.y < b.y ∨ a.x < b.x)) ∧
      (∃ a b : Point, combinedtarget_points_sorter a b = true ∧ ¬ lexicographicYX a b) := by
  refine ⟨⟨{ x := 40, y := 60 }, { x := 100, y := 50 }, by decide, by decide⟩, ?_, ?_⟩
  · intro a b
    simp [combinedtarget_points_sorter]
  · refine ⟨{ x := 40, y := 60 }, { x := 100, y := 50 }, by decide, ?_⟩
    unfold lexicographicYX
    decide

/-- Claim C9, evaluated on the code: ordering L = [(40, 60), (100, 50)] gives
[(100, 50), (40, 60)], and ordering that again gives [(40, 60), (100, 50)]; so
order (order L) differs from order L. -/
theorem sortPoints_twice_differs :
    sortPoints [⟨40, 60⟩, ⟨100, 50⟩] = [⟨100, 50⟩, ⟨40, 60⟩] ∧
      sortPoints (sortPoints [⟨40, 60⟩, ⟨100, 50⟩]) = [⟨40, 60⟩, ⟨100, 50⟩] ∧
      sortPoints (sortPoints [⟨40, 60⟩, ⟨100, 50⟩]) ≠ sortPoints [⟨40, 60⟩, ⟨100, 50⟩] := by
  refine ⟨by decide, by decide, by decide⟩

/-! ## The corner points of a found sub-grid -/

/-- Claim C10, evaluated on the code: for the 2 x 3 lattice with origin (10, 20) and step 10
the corners are passed to the fill in the order (10, 20), (30, 20), (10, 30), (30, 30); the
cross products of consecutive edges are 200, -200, -200, 200, so the four points in that
order are not the consecutive boundary vertices of a convex quadrilateral. The same holds
for the corners of every axis-aligned rectangle taken in that order (top-left, top-right,
bottom-left, bottom-right). -/
theorem cornerPoints_not_convex (env : Env) :
    cornerPoints env 2 3 [⟨10, 20⟩, ⟨20, 20⟩, ⟨30, 20⟩, ⟨10, 30⟩, ⟨20, 30⟩, ⟨30, 30⟩] =
        [⟨10, 20⟩, ⟨30, 20⟩, ⟨10, 30⟩, ⟨30, 30⟩] ∧
      edgeCrosses
          (cornerPoints env 2 3 [⟨10, 20⟩, ⟨20, 20⟩, ⟨30, 20⟩, ⟨10, 30⟩, ⟨20, 30⟩, ⟨30, 30⟩]) =
        [200, -200, -200, 200] ∧
      convexInOrder
          (cornerPoints env 2 3 [⟨10, 20⟩, ⟨20, 20⟩, ⟨30, 20⟩, ⟨10, 30⟩, ⟨20, 30⟩, ⟨30, 30⟩]) =
        false ∧
      (∀ x0 x1 y0 y1 : Int,
        convexInOrder [⟨x0, y0⟩, ⟨x1, y0⟩, ⟨x0, y1⟩, ⟨x1, y1⟩] = false) := by
  have h : cornerPoints env 2 3 [⟨10, 20⟩, ⟨20, 20⟩, ⟨30, 20⟩, ⟨10, 30⟩, ⟨20, 30⟩, ⟨30, 30⟩] =
      [⟨10, 20⟩, ⟨30, 20⟩, ⟨10, 30⟩, ⟨30, 30⟩] := by
    simp [cornerPoints, vecIndex, Point2f.toPoint, cvRound]
  rw [h]
  refine ⟨rfl, by decide, by decide, ?_⟩
  intro x0 x1 y0 y1
  simp only [convexInOrder, edgeCrosses, edgeCross, List.all_cons, List.all_nil,
    List.length_cons, List.length_nil]
  simp
  constructor
  · intro a b
    exfalso
    nlinarith
  · intro a b
    exfalso
    nlinarith

/-! ## `addTarget` -/

/-- Within the range of `int` the 32-bit value of an expression is its mathematical value. -/
theorem int32_of_inRange (z : Int) (hlo : -2147483648 ≤ z) (hhi : z < 2147483648) :
    int32 z = z := by
  unfold int32
  omega

/-- Claim C5: addTarget returns true exactly when the target type is Chessboard, CircleGrid
or CombinedCircleGrid; for ARtag and for every value that is none of the four options it
returns false. -/
theorem addTarget_accepts_iff (s : ROSCameraObserver) (targ : Target) (roi : Roi)
    (cost_type : Cost_function) :
    ((addTarget s targ roi cost_type).1 = true ↔
        (targ.target_type_ = pattern_options.Chessboard ∨
          targ.target_type_ = pattern_options.CircleGrid ∨
          targ.target_type_ = pattern_options.CombinedCircleGrid)) ∧
      ((addTarget s targ roi cost_type).1 = false ↔
        (targ.target_type_ = pattern_options.ARtag ∨
          (targ.target_type_ ≠ pattern_options.Chessboard ∧
            targ.target_type_ ≠ pattern_options.CircleGrid ∧
            targ.target_type_ ≠ pattern_options.CombinedCircleGrid ∧
            targ.target_type_ ≠ pattern_options.ARtag))) := by
  unfold addTarget
  simp only [pattern_options.Chessboard, pattern_options.CircleGrid,
    pattern_options.CombinedCircleGrid, pattern_options.ARtag]
  by_cases h0 : targ.target_type_ = 0
  · simp [h0]
  · by_cases h1 : targ.target_type_ = 1
    · simp [h1]
    · by_cases h2 : targ.target_type_ = 2
      · simp [h2]
      · by_cases h3 : targ.target_type_ = 3
        · simp [h3]
        · simp [h0, h1, h2, h3]

/-- Every call of `addTarget` stores the cost type it is given, also when it returns false. -/
theorem addTarget_cost_type (s : ROSCameraObserver) (targ : Target) (roi : Roi)
    (cost_type : Cost_function) : (addTarget s targ roi cost_type).2.cost_type_ = cost_type := by
  unfold addTarget
  simp only
  split
  · rfl
  · split
    · rfl
    · split
      · rfl
      · rename_i s3 hs3
        split at hs3
        · cases hs3; rfl
        · split at hs3
          · cases hs3; rfl
          · split at hs3
            · cases hs3; rfl
            · cases hs3

/-- Claim C6: for every stored ROI and every source image, if the ROI is wider than the image
has columns or higher than the image has rows, getObservations returns 0 and leaves the
observer exactly as it was: no detector call is recorded, and the point buffer, the working
image and the frame are untouched; the caller's cam_obs is unchanged too. -/
theorem getObservations_rejects_big_roi (env : Env) (fuel : Nat) (s : ROSCameraObserver)
    (cam_obs : CameraObservations) (frame : Mat)
    (hframe : s.input_bridge_ = some frame)
    (hbig : frame.cols < s.input_roi_.width ∨ frame.rows < s.input_roi_.height) :
    getObservations env fuel s cam_obs = .ok (0, s, cam_obs) := by
  have h : roiTooBig frame s.input_roi_ = true := by
    simpa [roiTooBig] using hbig
  simp [getObservations, hframe, h]

/-- Claim C6 on the sample observer with a stored ROI of width 9 and an 8 x 8 frame. -/
theorem getObservations_rejects_big_roi_witness :
    (({ sampleObserver with input_roi_ := { x := 0, y := 0, width := 9, height := 4 } } :
          ROSCameraObserver).input_bridge_ = some { rows := 8, cols := 8, data := [1] }) ∧
      getObservations sampleEnv 0
          { sampleObserver with input_roi_ := { x := 0, y := 0, width := 9, height := 4 } } [] =
        .ok (0, { sampleObserver with input_roi_ := { x := 0, y := 0, width := 9, height := 4 } },
          []) :=
  ⟨rfl, getObservations_rejects_big_roi sampleEnv 0 _ [] { rows := 8, cols := 8, data := [1] } rfl
    (Or.inl (by decide))⟩

/-- The loop leaves the cost type, the target, `camera_obs_` and `out_bridge_` alone and never
decreases the counter. -/
theorem detectAndMask_frame (env : Env) :
    ∀ (fuel : Nat) (s : ROSCameraObserver) (n : Int) (t : ROSCameraObserver) (m : Int),
      detectAndMask env fuel s n = .ok (t, m) →
        t.cost_type_ = s.cost_type_ ∧ t.instance_target_ = s.instance_target_ ∧
          t.camera_obs_ = s.camera_obs_ ∧ t.out_bridge_ = s.out_bridge_ ∧ n ≤ m := by
  intro fuel
  induction fuel with
  | zero =>
    intro s n t m h
    simp [detectAndMask] at h
  | succ fuel ih =>
    intro s n t m h
    unfold detectAndMask at h
    simp only at h
    split at h
    · have := ih _ _ _ _ h
      simp only at this
      obtain ⟨h1, h2, h3, h4, h5⟩ := this
      exact ⟨h1, h2, h3, h4, by omega⟩
    · simp only [Except.ok.injEq, Prod.mk.injEq] at h
      obtain ⟨h1, h2⟩ := h
      subst h1
      subst h2
      simp

/-- When the first detection of the loop succeeds, the counter grows. -/
theorem detectAndMask_first_found (env : Env) (fuel : Nat) (s : ROSCameraObserver) (n : Int)
    (t : ROSCameraObserver) (m : Int) (h : detectAndMask env fuel s n = .ok (t, m))
    (hfound : (findSubGrid env s.subpattern_rows_ s.subpattern_cols_ s.image_roi_).1 = true) :
    n < m := by
  cases fuel with
  | zero => simp [detectAndMask] at h
  | succ fuel =>
    unfold detectAndMask at h
    simp only [hfound, if_true] at h
    have := (detectAndMask_frame env _ _ _ _ _ h).2.2.2.2
    omega

/-- When the detector finds a sub-grid of `sr * sc` points on the working images `j, ..., k - 1` and
none on working image `k`, the loop started at pass `j` with more than `k - j` units of fuel
stops after `k - j` successes, `k - j + 1` detector calls and `(k - j) * sr * sc` appended
points. -/
theorem detectAndMask_run (env : Env) (sr sc : Int) (img0 : Mat) (k : Nat)
    (hfound : ∀ j, j < k →
      (findSubGrid env sr sc (workingImage env sr sc img0 j)).1 = true ∧
        (((findSubGrid env sr sc (workingImage env sr sc img0 j)).2.length : Int) = sr * sc))
    (hfail : (findSubGrid env sr sc (workingImage env sr sc img0 k)).1 = false) :
    ∀ (d j fuel : Nat) (t : ROSCameraObserver) (n : Int),
      j + d = k → d < fuel → t.subpattern_rows_ = sr → t.subpattern_cols_ = sc →
        t.image_roi_ = workingImage env sr sc img0 j →
          ∃ t', detectAndMask env fuel t n = .ok (t', n + (d : Int)) ∧
            (t'.observation_pts_.length : Int) =
              (t.observation_pts_.length : Int) + (d : Int) * (sr * sc) ∧
            t'.trace_.length = t.trace_.length + d + 1 := by
  intro d
  induction d with
  | zero =>
    intro j fuel t n hj hfuel hr hc himg
    obtain ⟨fuel, rfl⟩ : ∃ f, fuel = f + 1 := ⟨fuel - 1, by omega⟩
    have hjk : j = k := by omega
    subst hjk
    refine ⟨{ t with
      trace_ := t.trace_ ++ [Event.findCirclesGrid t.image_roi_
        { width := t.subpattern_cols_, height := t.subpattern_rows_ }
        CALIB_CB_SYMMETRIC_GRID] }, ?_, ?_, ?_⟩
    · unfold detectAndMask
      simp only [hr, hc, himg, hfail, Bool.false_eq_true, if_false]
      simp
    · simp
    · simp
  | succ d ih =>
    intro j fuel t n hj hfuel hr hc himg
    obtain ⟨fuel, rfl⟩ : ∃ f, fuel = f + 1 := ⟨fuel - 1, by omega⟩
    obtain ⟨hf1, hf2⟩ := hfound j (by omega)
    obtain ⟨t', hrun, hlen, htrace⟩ :=
      ih (j + 1) fuel
        { t with
          trace_ := t.trace_ ++ [Event.findCirclesGrid t.image_roi_
            { width := t.subpattern_cols_, height := t.subpattern_rows_ }
            CALIB_CB_SYMMETRIC_GRID]
          observation_pts_ := t.observation_pts_ ++
            (findSubGrid env sr sc (workingImage env sr sc img0 j)).2
          image_roi_ := workingImage env sr sc img0 (j + 1) }
        (n + 1) (by omega) (by omega) hr hc rfl
    refine ⟨t', ?_, ?_, ?_⟩
    · unfold detectAndMask
      simp only [hr, hc, himg, hf1, if_true]
      simp only [hr, hc, himg, workingImage] at hrun
      rw [hrun]
      congr 2
      push_cast
      ring
    · rw [hlen]
      simp only [List.length_append]
      push_cast
      rw [hf2]
      ring
    · rw [htrace]
      simp only [List.length_append, List.length_singleton]
      omega

/-- The copy loop never fails on a vector resized to the number of points; it keeps the records
below its start index and writes record `j` from point `j` from there on. -/
theorem copyObservations_spec (s : ROSCameraObserver) :
    ∀ (todo i : Nat) (obs0 : CameraObservations),
      obs0.length = i + todo → s.observation_pts_.length = i + todo →
        ∃ obs, copyObservations s todo i obs0 = .ok obs ∧ obs.length = i + todo ∧
          (∀ j, j < i → obs[j]? = obs0[j]?) ∧
          (∀ j p, i ≤ j → s.observation_pts_[j]? = some p →
            obs[j]? = some
              { target := s.instance_target_
                point_id := (j : Int)
                image_loc_x := p.x
                image_loc_y := p.y
                cost_type := s.cost_type_ }) := by
  intro todo
  induction todo with
  | zero =>
    intro i obs0 h0 hp
    refine ⟨obs0, rfl, h0, fun _ _ => rfl, ?_⟩
    intro j p hij hj
    have : j < s.observation_pts_.length := by
      rcases List.getElem?_eq_some_iff.mp hj with ⟨hlt, _⟩
      exact hlt
    omega
  | succ todo ih =>
    intro i obs0 h0 hp
    have hi0 : i < obs0.length := by omega
    have hip : i < s.observation_pts_.length := by omega
    have e0 : obs0[i]? = some obs0[i] := List.getElem?_eq_getElem hi0
    have ep : s.observation_pts_[i]? = some s.observation_pts_[i] := List.getElem?_eq_getElem hip
    have hstep : copyObservations s (todo + 1) i obs0 =
        copyObservations s todo (i + 1)
          (obs0.set i
            { target := s.instance_target_
              point_id := (i : Int)
              image_loc_x := s.observation_pts_[i].x
              image_loc_y := s.observation_pts_[i].y
              cost_type := s.cost_type_ }) := by
      simp [copyObservations, vecAt, e0, ep]
    obtain ⟨obs, hrun, hlen, hbelow, habove⟩ :=
      ih (i + 1)
        (obs0.set i
          { target := s.instance_target_
            point_id := (i : Int)
            image_loc_x := s.observation_pts_[i].x
            image_loc_y := s.observation_pts_[i].y
            cost_type := s.cost_type_ })
        (by simp; omega) (by omega)
    refine ⟨obs, by rw [hstep, hrun], by omega, ?_, ?_⟩
    · intro j hj
      rw [hbelow j (by omega)]
      exact List.getElem?_set_ne (by omega)
    · intro j p hij hj
      rcases Nat.eq_or_lt_of_le hij with heq | hlt
      · subst heq
        rw [hbelow i (by omega)]
        rw [ep] at hj
        cases hj
        simp [List.getElem?_set_self, hi0]
      · exact habove j p (by omega) hj

/-- The copy loop started at index 0 on a vector of the right size returns a vector of that size. -/
theorem copyObservations_total (s : ROSCameraObserver) (n : Nat) (obs0 : CameraObservations)
    (res : Except Fault CameraObservations) (h : copyObservations s n 0 obs0 = res)
    (h0 : obs0.length = n) (hp : s.observation_pts_.length = n) :
    ∃ obs, res = .ok obs ∧ obs.length = n := by
  obtain ⟨obs, hrun, hlen, -, -⟩ := copyObservations_spec s n 0 obs0 (by omega) (by omega)
  exact ⟨obs, by rw [← h, hrun], by omega⟩

/-- The detector switch leaves the cost type, the target, `camera_obs_` and `out_bridge_` alone. -/
theorem detectPattern_frame (env : Env) (fuel : Nat) (s t : ROSCameraObserver) (b : Bool)
    (h : detectPattern env fuel s = .ok (t, b)) :
    t.cost_type_ = s.cost_type_ ∧ t.instance_target_ = s.instance_target_ ∧
      t.camera_obs_ = s.camera_obs_ ∧ t.out_bridge_ = s.out_bridge_ := by
  unfold detectPattern at h
  simp only at h
  split at h
  · simp only [Except.ok.injEq, Prod.mk.injEq] at h
    obtain ⟨h1, -⟩ := h
    subst h1
    simp
  · split at h
    · simp only [Except.ok.injEq, Prod.mk.injEq] at h
      obtain ⟨h1, -⟩ := h
      subst h1
      simp
    · split at h
      · split at h
        · simp at h
        · rename_i s1 successes hrun
          obtain ⟨h1, h2, h3, h4, -⟩ := detectAndMask_frame env _ _ _ _ _ hrun
          split at h
          · split at h
            · simp at h
            · simp only [Except.ok.injEq, Prod.mk.injEq] at h
              obtain ⟨h5, -⟩ := h
              subst h5
              exact ⟨h1, h2, h3, h4⟩
          · simp only [Except.ok.injEq, Prod.mk.injEq] at h
            obtain ⟨h5, -⟩ := h
            subst h5
            exact ⟨h1, h2, h3, h4⟩
      · simp only [Except.ok.injEq, Prod.mk.injEq] at h
        obtain ⟨h1, -⟩ := h
        subst h1
        simp

/-- For the combined grid the switch reports not-found only if the first sub-grid detection fails. -/
theorem detectPattern_combined_not_found (env : Env) (fuel : Nat) (s t : ROSCameraObserver)
    (h : detectPattern env fuel s = .ok (t, false))
    (hpat : s.pattern_ = pattern_options.CombinedCircleGrid) :
    (findSubGrid env s.subpattern_rows_ s.subpattern_cols_ s.image_roi_).1 = false := by
  unfold detectPattern at h
  have h0 : ¬ pattern_options.CombinedCircleGrid = pattern_options.Chessboard := by decide
  have h1 : ¬ pattern_options.CombinedCircleGrid = pattern_options.CircleGrid := by decide
  simp only [hpat, h0, h1, if_true, if_false] at h
  split at h
  · simp at h
  · rename_i s1 successes hrun
    split at h
    · split at h
      · simp at h
      · simp at h
    · rename_i hs
      by_contra hfound
      have hfound' : (findSubGrid env s.subpattern_rows_ s.subpattern_cols_ s.image_roi_).1 = true := by
        simpa using hfound
      have := detectAndMask_first_found env _ _ _ _ _ hrun hfound'
      omega

/-- Publishing changes `out_bridge_` and the trace only. -/
theorem publishRoi_frame (s t : ROSCameraObserver) (h : publishRoi s = .ok t) :
    t.cost_type_ = s.cost_type_ ∧ t.instance_target_ = s.instance_target_ ∧
      t.camera_obs_ = s.camera_obs_ ∧ t.observation_pts_ = s.observation_pts_ ∧
      t.image_roi_ = s.image_roi_ := by
  unfold publishRoi at h
  split at h
  · simp at h
  · simp only [Except.ok.injEq] at h
    subst h
    simp

/-! ## The rejecting return is the only one that records no call -/

/-- The loop never shortens the record of calls. -/
theorem detectAndMask_trace (env : Env) :
    ∀ (fuel : Nat) (s : ROSCameraObserver) (n : Int) (t : ROSCameraObserver) (m : Int),
      detectAndMask env fuel s n = .ok (t, m) → s.trace_.length ≤ t.trace_.length := by
  intro fuel
  induction fuel with
  | zero =>
    intro s n t m h
    simp [detectAndMask] at h
  | succ fuel ih =>
    intro s n t m h
    unfold detectAndMask at h
    simp only at h
    split at h
    · have := ih _ _ _ _ h
      simp only [List.length_append, List.length_singleton] at this
      omega
    · simp only [Except.ok.injEq, Prod.mk.injEq] at h
      obtain ⟨h1, -⟩ := h
      subst h1
      simp

/-- The detector switch never shortens the record of calls. -/
theorem detectPattern_trace (env : Env) (fuel : Nat) (s t : ROSCameraObserver) (b : Bool)
    (h : detectPattern env fuel s = .ok (t, b)) : s.trace_.length ≤ t.trace_.length := by
  unfold detectPattern at h
  simp only at h
  split at h
  · simp only [Except.ok.injEq, Prod.mk.injEq] at h
    obtain ⟨h1, -⟩ := h
    subst h1
    simp
  · split at h
    · simp only [Except.ok.injEq, Prod.mk.injEq] at h
      obtain ⟨h1, -⟩ := h
      subst h1
      simp
    · split at h
      · split at h
        · simp at h
        · rename_i s1 successes hrun
          have h1 := detectAndMask_trace env _ _ _ _ _ hrun
          split at h
          · split at h
            · simp at h
            · simp only [Except.ok.injEq, Prod.mk.injEq] at h
              obtain ⟨h5, -⟩ := h
              subst h5
              exact h1
          · simp only [Except.ok.injEq, Prod.mk.injEq] at h
            obtain ⟨h5, -⟩ := h
            subst h5
            exact h1
      · simp only [Except.ok.injEq, Prod.mk.injEq] at h
        obtain ⟨h1, -⟩ := h
        subst h1
        exact Nat.le_refl _

/-- Publishing records one call. -/
theorem publishRoi_trace (s t : ROSCameraObserver) (h : publishRoi s = .ok t) :
    t.trace_.length = s.trace_.length + 1 := by
  unfold publishRoi at h
  split at h
  · simp at h
  · simp only [Except.ok.injEq] at h
    subst h
    simp

/-- Past the size test every return of `getObservations` has recorded at least one call. -/
theorem getObservations_accepted_trace (env : Env) (fuel : Nat) (s : ROSCameraObserver)
    (cam_obs : CameraObservations) (frame : Mat) (r : Int) (t : ROSCameraObserver)
    (obs : CameraObservations) (hframe : s.input_bridge_ = some frame)
    (hroi : roiTooBig frame s.input_roi_ = false)
    (h : getObservations env fuel s cam_obs = .ok (r, t, obs)) :
    s.trace_.length < t.trace_.length := by
  unfold getObservations at h
  simp only [hframe, hroi, Bool.false_eq_true, if_false] at h
  split at h
  · simp at h
  · split at h
    · simp at h
    · rename_i s2 found hdp
      have h1 := detectPattern_trace env _ _ _ _ hdp
      simp only at h1
      split at h
      · simp at h
      · rename_i s5 hpub
        have h2 := publishRoi_trace _ _ hpub
        simp only at h2
        split at h
        · split at h
          · simp at h
          · rename_i s7 hpub2
            have h3 := publishRoi_trace _ _ hpub2
            simp only at h3
            simp only [Except.ok.injEq, Prod.mk.injEq] at h
            obtain ⟨-, h4, -⟩ := h
            subst h4
            omega
        · split at h
          · simp at h
          · simp only [Except.ok.injEq, Prod.mk.injEq] at h
            obtain ⟨-, h4, -⟩ := h
            subst h4
            simp only
            omega

/-- On an observer that holds a frame, `getObservations` returns 0 with the observer and
`cam_obs` untouched exactly when the size test rejects the stored rectangle. -/
theorem getObservations_untouched_iff_rejected (env : Env) (fuel : Nat)
    (s : ROSCameraObserver) (cam_obs : CameraObservations) (frame : Mat)
    (hframe : s.input_bridge_ = some frame) :
    getObservations env fuel s cam_obs = .ok (0, s, cam_obs) ↔
      roiTooBig frame s.input_roi_ = true := by
  constructor
  · intro h
    by_contra hbig
    have hroi : roiTooBig frame s.input_roi_ = false := by simpa using hbig
    have := getObservations_accepted_trace env fuel s cam_obs frame 0 s cam_obs hframe hroi h
    omega
  · intro hbig
    simp [getObservations, hframe, hbig]

/-! ## What `getObservations` hands back -/

/-- Claim C2: whenever getObservations returns 0, for every observer state, frame and pattern type,
the caller's cam_obs is exactly what it was before the call (and the internal record list is
untouched), whatever the detector left in the point buffer; and for the CombinedCircleGrid
pattern with an accepted ROI a return of 0 means that the first sub-grid detection failed. -/
theorem getObservations_zero_keeps_cam_obs (env : Env) (fuel : Nat) (s : ROSCameraObserver)
    (cam_obs : CameraObservations) (s' : ROSCameraObserver) (obs : CameraObservations)
    (h : getObservations env fuel s cam_obs = .ok (0, s', obs)) :
    obs = cam_obs ∧ s'.camera_obs_ = s.camera_obs_ ∧
      (∀ frame sub, s.input_bridge_ = some frame → roiTooBig frame s.input_roi_ = false →
        env.subImage frame s.input_roi_ = some sub →
        s.pattern_ = pattern_options.CombinedCircleGrid →
          (findSubGrid env s.subpattern_rows_ s.subpattern_cols_ sub).1 = false) := by
  unfold getObservations at h
  split at h
  · simp at h
  · rename_i frame hframe
    split at h
    · rename_i hbig
      simp only [Except.ok.injEq, Prod.mk.injEq, true_and] at h
      obtain ⟨h1, h2⟩ := h
      subst h1
      subst h2
      refine ⟨rfl, rfl, ?_⟩
      intro frame2 sub hf2 hacc
      rw [hframe] at hf2
      cases hf2
      rw [hbig] at hacc
      cases hacc
    · split at h
      · simp at h
      · rename_i sub hsub
        simp only at h
        split at h
        · simp at h
        · rename_i s2 found hdp
          have hfr := detectPattern_frame env _ _ _ _ hdp
          split at h
          · simp at h
          · rename_i s5 hpub
            have hp5 := publishRoi_frame _ _ hpub
            cases found with
            | true =>
              simp only [Bool.not_true, Bool.false_eq_true, if_false] at h
              split at h
              · simp at h
              · simp at h
            | false =>
              simp only [Bool.not_false, if_true] at h
              split at h
              · simp at h
              · rename_i s7 hpub7
                have hp7 := publishRoi_frame _ _ hpub7
                simp only [Except.ok.injEq, Prod.mk.injEq, true_and] at h
                obtain ⟨h1, h2⟩ := h
                subst h1
                subst h2
                refine ⟨rfl, ?_, ?_⟩
                · rw [hp7.2.2.1]
                  simp only
                  rw [hp5.2.2.1]
                  simp only
                  rw [hfr.2.2.1]
                · intro frame2 sub2 hf2 _ hsub2 hpat
                  rw [hframe] at hf2
                  cases hf2
                  rw [hsub] at hsub2
                  cases hsub2
                  exact detectPattern_combined_not_found env fuel _ _ hdp hpat

/-- Claim C2 on the sample frame without a chessboard: the failed search leaves a point in the
buffer, the call returns 0 and the caller's list is unchanged. -/
theorem getObservations_zero_keeps_cam_obs_witness :
    getObservations sampleEnv 0 blankChessObserver chessRecords =
        .ok (0, blankChessAfter, chessRecords) ∧
      blankChessAfter.observation_pts_ = [⟨7, 9⟩] ∧
      chessRecords = chessRecords ∧ blankChessAfter.camera_obs_ = blankChessObserver.camera_obs_ :=
  ⟨rfl, rfl,
    (getObservations_zero_keeps_cam_obs sampleEnv 0 blankChessObserver chessRecords
      blankChessAfter chessRecords rfl).1,
    (getObservations_zero_keeps_cam_obs sampleEnv 0 blankChessObserver chessRecords
      blankChessAfter chessRecords rfl).2.1⟩

/-- Claim C1: whenever getObservations returns 1 with n points in the buffer in their final order,
the cam_obs handed back has exactly n records, record i has point_id = i, image_loc_x = p_i.x,
image_loc_y = p_i.y and the cost type stored in the observer (which every addTarget call sets to
its argument), so the point_ids are 0, ..., n-1 in order. -/
theorem getObservations_one_builds_records (env : Env) (fuel : Nat) (s : ROSCameraObserver)
    (cam_obs : CameraObservations) (s' : ROSCameraObserver) (obs : CameraObservations)
    (h : getObservations env fuel s cam_obs = .ok (1, s', obs)) :
    obs.length = s'.observation_pts_.length ∧
      (∀ (i : Nat) (p : Point2f), s'.observation_pts_[i]? = some p →
        obs[i]? = some
          { target := s.instance_target_
            point_id := (i : Int)
            image_loc_x := p.x
            image_loc_y := p.y
            cost_type := s.cost_type_ }) ∧
      obs.map (fun o => o.point_id) =
        (List.range s'.observation_pts_.length).map Int.ofNat ∧
      (∀ (targ : Target) (roi : Roi) (cost_type : Cost_function),
        (addTarget s targ roi cost_type).2.cost_type_ = cost_type) := by
  have key : obs.length = s'.observation_pts_.length ∧
      (∀ (i : Nat) (p : Point2f), s'.observation_pts_[i]? = some p →
        obs[i]? = some
          { target := s.instance_target_
            point_id := (i : Int)
            image_loc_x := p.x
            image_loc_y := p.y
            cost_type := s.cost_type_ }) := by
    unfold getObservations at h
    split at h
    · simp at h
    · rename_i frame hframe
      split at h
      · simp at h
      · split at h
        · simp at h
        · simp only at h
          split at h
          · simp at h
          · rename_i s2 found hdp
            have hfr := detectPattern_frame env _ _ _ _ hdp
            split at h
            · simp at h
            · rename_i s5 hpub
              have hp5 := publishRoi_frame _ _ hpub
              cases found with
              | false =>
                simp only [Bool.not_false, if_true] at h
                split at h
                · simp at h
                · simp at h
              | true =>
                simp only [Bool.not_true, Bool.false_eq_true, if_false] at h
                obtain ⟨obs1, hrun, hlen, -, hrec⟩ :=
                  copyObservations_spec s5 s5.observation_pts_.length 0
                    (vecResize Observation.zero s5.camera_obs_ s5.observation_pts_.length)
                    (by rw [vecResize_length]; omega) (by omega)
                rw [hrun] at h
                simp only [Except.ok.injEq, Prod.mk.injEq, true_and] at h
                obtain ⟨h1, h2⟩ := h
                subst h1
                subst h2
                refine ⟨by simpa using hlen, ?_⟩
                intro i p hi
                have := hrec i p (Nat.zero_le i) hi
                rw [hp5.1, hp5.2.1] at this
                simp only at this
                rw [hfr.1, hfr.2.1] at this
                exact this
  obtain ⟨hlen, hrec⟩ := key
  refine ⟨hlen, hrec, ?_, fun targ roi ct => addTarget_cost_type s targ roi ct⟩
  apply List.ext_getElem?
  intro i
  by_cases hi : i < s'.observation_pts_.length
  · have hp : s'.observation_pts_[i]? = some s'.observation_pts_[i] :=
      List.getElem?_eq_getElem hi
    rw [List.getElem?_map, List.getElem?_map, hrec i _ hp, List.getElem?_range hi]
    rfl
  · have h1 : obs[i]? = none := List.getElem?_eq_none (by omega)
    have h2 : (List.range s'.observation_pts_.length)[i]? = none :=
      List.getElem?_eq_none (by simp; omega)
    rw [List.getElem?_map, List.getElem?_map, h1, h2]
    rfl

/-- Claim C1 on the sample chessboard frame: the call returns 1 with two points and records 0 and 1. -/
theorem getObservations_one_builds_records_witness :
    getObservations sampleEnv 0 chessObserver [] = .ok (1, chessAfter, chessRecords) ∧
      chessRecords.length = chessAfter.observation_pts_.length ∧
      chessRecords.map (fun o => o.point_id) =
        (List.range chessAfter.observation_pts_.length).map Int.ofNat :=
  ⟨rfl,
    (getObservations_one_builds_records sampleEnv 0 chessObserver [] chessAfter chessRecords
      rfl).1,
    (getObservations_one_builds_records sampleEnv 0 chessObserver [] chessAfter chessRecords
      rfl).2.2.1⟩

/-- The halving loop computes the binary logarithm whenever it has at least `n` rounds. -/
theorem lgLoop_eq_log2 (steps : Nat) : ∀ n, n ≤ steps → lgLoop steps n = Nat.log2 n := by
  induction steps with
  | zero =>
    intro n hn
    have h0 : n = 0 := by omega
    subst h0
    rw [Nat.log2]
    simp [lgLoop]
  | succ steps ih =>
    intro n hn
    rw [Nat.log2]
    simp only [lgLoop]
    by_cases h2 : 2 ≤ n
    · have hle : n / 2 ≤ steps := by omega
      simp only [h2, if_true, ge_iff_le]
      rw [ih _ hle]
    · simp [h2]

/-- Routine `__lg` is the binary logarithm rounded down. -/
theorem lg_eq_log2 (n : Nat) : lg n = Nat.log2 n :=
  lgLoop_eq_log2 n n (Nat.le_refl n)

/-- On a buffer of at most 16 points the combined grid is counted and handed back: for the
CombinedCircleGrid pattern with sub_rows > 0 and sub_cols > 0, on an observer that holds a
frame with its output image, with an accepted and extracted ROI, if the detector finds a
sub-grid of exactly sub_rows * sub_cols points on each of the first k >= 1 working images and
none on the next, then with more than k units of fuel the detect-and-mask loop, entered with
an empty accumulator, stops at that first failure (k + 1 detector calls) with successes = k
and exactly k * sub_rows * sub_cols accumulated points, whatever k is; and when these are at
most 16, getObservations returns 1 with exactly k * sub_rows * sub_cols correspondences. The
four corner indices lie inside a found sub-grid. -/
theorem combined_grid_counts_short (env : Env) (fuel : Nat) (s : ROSCameraObserver)
    (cam_obs : CameraObservations) (frame out sub : Mat) (k : Nat)
    (hframe : s.input_bridge_ = some frame) (hout : s.out_bridge_ = some out)
    (hroi : roiTooBig frame s.input_roi_ = false)
    (hsub : env.subImage frame s.input_roi_ = some sub)
    (hpat : s.pattern_ = pattern_options.CombinedCircleGrid)
    (hrows : 0 < s.subpattern_rows_) (hcols : 0 < s.subpattern_cols_)
    (hk : 1 ≤ k)
    (hfound : ∀ j, j < k →
      (findSubGrid env s.subpattern_rows_ s.subpattern_cols_
          (workingImage env s.subpattern_rows_ s.subpattern_cols_ sub j)).1 = true ∧
        (((findSubGrid env s.subpattern_rows_ s.subpattern_cols_
          (workingImage env s.subpattern_rows_ s.subpattern_cols_ sub j)).2.length : Int) =
          s.subpattern_rows_ * s.subpattern_cols_))
    (hfail : (findSubGrid env s.subpattern_rows_ s.subpattern_cols_
        (workingImage env s.subpattern_rows_ s.subpattern_cols_ sub k)).1 = false)
    (hfuel : k < fuel) :
    (∃ t, detectAndMask env fuel { s with image_roi_ := sub, observation_pts_ := [] } 0 =
        .ok (t, (k : Int)) ∧
        (t.observation_pts_.length : Int) = k * s.subpattern_rows_ * s.subpattern_cols_ ∧
        t.trace_.length = s.trace_.length + k + 1) ∧
      ((k : Int) * s.subpattern_rows_ * s.subpattern_cols_ ≤ 16 →
        ∃ s' obs, getObservations env fuel s cam_obs = .ok (1, s', obs) ∧
          (obs.length : Int) = k * s.subpattern_rows_ * s.subpattern_cols_ ∧
          (s'.observation_pts_.length : Int) = k * s.subpattern_rows_ * s.subpattern_cols_) ∧
      (0 ≤ s.subpattern_cols_ - 1 ∧
        s.subpattern_cols_ - 1 < s.subpattern_rows_ * s.subpattern_cols_ ∧
        0 ≤ (s.subpattern_rows_ - 1) * s.subpattern_cols_ ∧
        (s.subpattern_rows_ - 1) * s.subpattern_cols_ < s.subpattern_rows_ * s.subpattern_cols_ ∧
        0 ≤ s.subpattern_rows_ * s.subpattern_cols_ - 1) := by
  obtain ⟨t, hrun, hlen, htrace⟩ :=
    detectAndMask_run env s.subpattern_rows_ s.subpattern_cols_ sub k hfound hfail k 0 fuel
      { s with image_roi_ := sub, observation_pts_ := [] } 0
      (by omega) hfuel rfl rfl rfl
  simp only [zero_add, List.length_nil, Nat.cast_zero] at hrun hlen
  have hlen' : (t.observation_pts_.length : Int) =
      k * s.subpattern_rows_ * s.subpattern_cols_ := by
    rw [hlen]; ring
  refine ⟨⟨t, hrun, hlen', by simpa using htrace⟩, ?_, ?_⟩
  · intro hshort
    have hle : t.observation_pts_.length ≤ 16 := by
      have : (t.observation_pts_.length : Int) ≤ 16 := by rw [hlen']; exact hshort
      exact_mod_cast this
    have hfr := detectAndMask_frame env _ _ _ _ _ hrun
    have hkpos : (0 : Int) < (k : Int) := by exact_mod_cast hk
    have h0 : ¬ pattern_options.CombinedCircleGrid = pattern_options.Chessboard := by decide
    have h1 : ¬ pattern_options.CombinedCircleGrid = pattern_options.CircleGrid := by decide
    have hdp : detectPattern env fuel { s with image_roi_ := sub, observation_pts_ := [] } =
        .ok ({ t with observation_pts_ := sortPoints t.observation_pts_ }, true) := by
      unfold detectPattern
      simp only [hpat, h0, h1, if_true, if_false]
      simp only [hpat] at hrun
      rw [hrun]
      simp only [hkpos, if_true]
      rw [sortObservationPts_short _ hle]
    have hget : ∃ s' obs, getObservations env fuel s cam_obs = .ok (1, s', obs) ∧
        obs.length = (sortPoints t.observation_pts_).length ∧
        s'.observation_pts_ = sortPoints t.observation_pts_ := by
      generalize hg : getObservations env fuel s cam_obs = r
      unfold getObservations at hg
      split at hg
      · rename_i hnone
        rw [hframe] at hnone
        cases hnone
      · rename_i frame2 hf2
        rw [hframe] at hf2
        cases hf2
        simp only [hroi, Bool.false_eq_true, if_false, hsub] at hg
        rw [hdp] at hg
        simp only [publishRoi, hfr.2.2.2.1, hout, Bool.not_true, Bool.false_eq_true,
          if_false] at hg
        split at hg
        · rename_i e he
          obtain ⟨obs1, hres, -⟩ :=
            copyObservations_total _ _ _ _ he (vecResize_length _ _ _) rfl
          cases hres
        · rename_i obs he
          obtain ⟨obs1, hres, hl⟩ :=
            copyObservations_total _ _ _ _ he (vecResize_length _ _ _) rfl
          cases hres
          rw [← hg]
          exact ⟨_, _, rfl, hl, rfl⟩
    obtain ⟨s', obs1, hs', hlen1, hpts⟩ := hget
    refine ⟨s', obs1, hs', ?_, ?_⟩
    · rw [hlen1, sortPoints_length]
      exact hlen'
    · rw [hpts, sortPoints_length]
      exact hlen'
  · refine ⟨by omega, ?_, ?_, ?_, ?_⟩ <;> nlinarith

/-- The count on the sample frame with two sub-grids of one circle: two successes, three
detector calls, two correspondences. -/
theorem combined_grid_counts_short_witness :
    sampleEnv.subImage { rows := 8, cols := 8, data := [] } combinedObserver.input_roi_ =
        some { rows := 4, cols := 4, data := [] } ∧
    (∃ t, detectAndMask sampleEnv 3
          { combinedObserver with
            image_roi_ := { rows := 4, cols := 4, data := [] }
            observation_pts_ := [] } 0 = .ok (t, ((2 : Nat) : Int)) ∧
        (t.observation_pts_.length : Int) =
          (2 : Nat) * combinedObserver.subpattern_rows_ * combinedObserver.subpattern_cols_ ∧
        t.trace_.length = combinedObserver.trace_.length + 2 + 1) ∧
      (∃ s' obs, getObservations sampleEnv 3 combinedObserver [] = .ok (1, s', obs) ∧
        (obs.length : Int) =
          (2 : Nat) * combinedObserver.subpattern_rows_ * combinedObserver.subpattern_cols_ ∧
        (s'.observation_pts_.length : Int) =
          (2 : Nat) * combinedObserver.subpattern_rows_ * combinedObserver.subpattern_cols_) :=
  ⟨rfl,
    (combined_grid_counts_short sampleEnv 3 combinedObserver []
      { rows := 8, cols := 8, data := [] } { rows := 8, cols := 8, data := [1] }
      { rows := 4, cols := 4, data := [] } 2
      rfl rfl rfl rfl rfl (by decide) (by decide) (by decide) (by decide) (by decide)
      (by decide)).1,
    (combined_grid_counts_short sampleEnv 3 combinedObserver []
      { rows := 8, cols := 8, data := [] } { rows := 8, cols := 8, data := [1] }
      { rows := 4, cols := 4, data := [] } 2
      rfl rfl rfl rfl rfl (by decide) (by decide) (by decide) (by decide) (by decide)
      (by decide)).2.1 (by decide)⟩

/-- Claim C4, evaluated on the code: for the CombinedCircleGrid pattern with sub-grids of
2 x 3 circles, on a target tilted by about three degrees, the detector succeeds three times
in a row with six points each and then fails. The loop stops at that failure with
successes = 3 and the 18 = 3 * 2 * 3 accumulated points, as the claim says. The sort of
these 18 points, however, leaves the vector: the first partitioning pass of std::sort
dereferences an iterator outside it, because the comparator is not a strict weak ordering.
getObservations therefore does not return 1 with 18 correspondences; its outcome is
undefined behaviour of the sort. -/
theorem combined_grid_sort_leaves_vector :
    tiltedObserver.pattern_ = pattern_options.CombinedCircleGrid ∧
      tiltedObserver.subpattern_rows_ = 2 ∧ tiltedObserver.subpattern_cols_ = 3 ∧
      (detectAndMask tiltedEnv 4
            { tiltedObserver with
              image_roi_ := { rows := 480, cols := 640, data := [] }
              observation_pts_ := [] } 0).map
          (fun r => (r.2, r.1.observation_pts_, r.1.trace_.length)) =
        .ok (3, tiltedPoints, 4) ∧
      tiltedPoints.length = 3 * 2 * 3 ∧
      unguardedPartitionPivot comparePoints tiltedPoints 0 18 = .error Fault.strayIterator ∧
      sortObservationPts tiltedPoints = .error Fault.strayIterator ∧
      getObservations tiltedEnv 4 tiltedObserver [] = .error Fault.strayIterator := by
  refine ⟨rfl, rfl, rfl, rfl, rfl, ?_, ?_, ?_⟩
  · rfl
  · rfl
  · rfl

end industrial_extrinsic_cal
